import Mathlib

set_option autoImplicit false

/-!
Shallow embedding of the SuccessFactors health-factors dashboard client
(`app.py`) and its repository-update helper (`tools/ai_update.py`).

JSON values are modelled by the inductive type `JVal` (JSON numbers are
modelled as integers; the payloads consumed here are counters, flags and
strings).  Python dictionaries are association lists with distinct keys;
`dict.get` returning `None` for an absent key is modelled by collapsing
both "absent" and "present with value null" to `JVal.null`, exactly as
Python's `None` behaves in the `or`-fallback chains of the source.
Fallible Python operations (attribute errors, JSON decode errors) are
modelled with `Except`; the `try/except` blocks of the source become
`match` on the `Except` value.
-/

/-- JSON-like Python value as it appears in the decoded payloads. -/
inductive JVal where
  | null
  | bool (b : Bool)
  | int (n : Int)
  | str (s : String)
  | list (xs : List JVal)
  | dict (kvs : List (String × JVal))

/-- Python truthiness of a value (`bool(x)`): `None`, `False`, `0`, `""`,
`[]` and `{}` are falsy, everything else is truthy. -/
def pyTruthy : JVal → Bool
  | .null => false
  | .bool b => b
  | .int n => n != 0
  | .str s => s != ""
  | .list xs => !xs.isEmpty
  | .dict kvs => !kvs.isEmpty

/-- First binding of a key in an association-list dictionary. -/
def lookupJ : List (String × JVal) → String → Option JVal
  | [], _ => none
  | (k, v) :: rest, key => if k = key then some v else lookupJ rest key

/-- Python `m.get(k)`: the stored value, or `None` when the key is absent.
A stored JSON `null` is already Python `None`, so both cases collapse to
`JVal.null`. -/
def pyGet (m : List (String × JVal)) (k : String) : JVal :=
  (lookupJ m k).getD .null

/-- Python `a or b`: `a` when truthy, else `b`. -/
def pyOr (a b : JVal) : JVal :=
  if pyTruthy a then a else b

/-- Digits of a Python integer literal after the optional sign: at least one
decimal digit, single underscores allowed between digits (`int("1_2") = 12`).
The accumulator carries the value parsed so far. -/
def pyDigitsAux : Nat → List Char → Option Nat
  | acc, [] => some acc
  | acc, '_' :: c :: rest =>
      if c.isDigit then pyDigitsAux (acc * 10 + (c.toNat - 48)) rest else none
  | _, ['_'] => none
  | acc, c :: rest =>
      if c.isDigit then pyDigitsAux (acc * 10 + (c.toNat - 48)) rest else none

/-- Nonempty run of decimal digits (with optional inner underscores). -/
def pyDigits : List Char → Option Nat
  | [] => none
  | c :: rest => if c.isDigit then pyDigitsAux (c.toNat - 48) rest else none

/-- ASCII whitespace accepted by Python's `int(str)` around the number. -/
def isPySpace (c : Char) : Bool :=
  c = ' ' || c = '\t' || c = '\n' || c = '\r'

/-- Strip leading and trailing whitespace from a character list. -/
def trimChars (cs : List Char) : List Char :=
  ((cs.dropWhile isPySpace).reverse.dropWhile isPySpace).reverse

/-- Python `int(s)` on a string: optional surrounding whitespace, optional
sign, decimal digits; `none` models the `ValueError` raised otherwise. -/
def pyIntOfString (s : String) : Option Int :=
  match trimChars s.data with
  | '+' :: rest => (pyDigits rest).map Int.ofNat
  | '-' :: rest => (pyDigits rest).map (fun n => -(n : Int))
  | rest => (pyDigits rest).map Int.ofNat

/-- Python `int(x)` on a non-`None` value: booleans coerce to 0/1, integers
to themselves, strings are parsed; `int` of a list or dict raises, modelled
as `none`. -/
def pyInt : JVal → Option Int
  | .bool b => some (if b then 1 else 0)
  | .int n => some n
  | .str s => pyIntOfString s
  | _ => none

/-- Source `_safe_int(x, default)`: `default` for `None`, otherwise `int(x)`
with any exception giving `default`. -/
def safe_int (x : JVal) (d : Int) : Int :=
  match x with
  | .null => d
  | v => (pyInt v).getD d

/-- Source `_safe_list(x)`: the value if it is a list, else `[]`. -/
def safe_list : JVal → List JVal
  | .list xs => xs
  | _ => []

/-- Source `_safe_dict(x)`: the value if it is a dict, else `{}`. -/
def safe_dict : JVal → List (String × JVal)
  | .dict kvs => kvs
  | _ => []

/-- Python slice `s[:n]` on a string. -/
def strTake (s : String) (n : Nat) : String :=
  ⟨s.data.take n⟩

/-- Python `s.rstrip("/")`: remove every trailing slash. -/
def rstripSlashes (s : String) : String :=
  ⟨(s.data.reverse.dropWhile (fun c => c = '/')).reverse⟩

/-- Does `needle` occur as a contiguous sublist of `hay`? -/
def hasSubList (needle : List Char) : List Char → Bool
  | [] => needle.isEmpty
  | c :: rest => List.isPrefixOf needle (c :: rest) || hasSubList needle rest

/-- Python `needle in hay` on strings. -/
def strContains (needle hay : String) : Bool :=
  hasSubList needle.data hay.data

mutual

/-- Python `repr` of a decoded JSON value (containers print their items with
`repr`, strings with single quotes; escaping inside strings is not modelled).
Used only to model `str(x)` on a non-string in an f-string. -/
def pyRepr : JVal → String
  | .null => "None"
  | .bool b => if b then "True" else "False"
  | .int n => toString n
  | .str s => String.mk [Char.ofNat 39] ++ s ++ String.mk [Char.ofNat 39]
  | .list xs => "[" ++ pyReprItems xs ++ "]"
  | .dict kvs => "\x7b" ++ pyReprPairs kvs ++ "\x7d"

/-- Comma-separated `repr`s of list items. -/
def pyReprItems : List JVal → String
  | [] => ""
  | [x] => pyRepr x
  | x :: rest => pyRepr x ++ ", " ++ pyReprItems rest

/-- Comma-separated `repr`s of dict entries. -/
def pyReprPairs : List (String × JVal) → String
  | [] => ""
  | [(k, v)] => pyRepr (.str k) ++ ": " ++ pyRepr v
  | (k, v) :: rest => pyRepr (.str k) ++ ": " ++ pyRepr v ++ ", " ++ pyReprPairs rest

end

/-- Python `str(x)`: identity on strings, `repr`-style elsewhere. -/
def pyStrVal : JVal → String
  | .str s => s
  | v => pyRepr v

/-- Python `s.replace("Z", "+00:00")` (single-character needle). -/
def replaceZChar : List Char → List Char
  | [] => []
  | c :: rest => (if c = 'Z' then "+00:00".data else [c]) ++ replaceZChar rest

/-- Numeric value of an ASCII digit. -/
def digitVal (c : Char) : Nat := c.toNat - 48

/-- Exactly two decimal digits at the head of the input. -/
def parse2 : List Char → Option (Nat × List Char)
  | a :: b :: rest =>
      if a.isDigit && b.isDigit then some (digitVal a * 10 + digitVal b, rest) else none
  | _ => none

/-- Exactly four decimal digits at the head of the input. -/
def parse4 : List Char → Option (Nat × List Char)
  | a :: b :: c :: d :: rest =>
      if a.isDigit && b.isDigit && c.isDigit && d.isDigit then
        some (((digitVal a * 10 + digitVal b) * 10 + digitVal c) * 10 + digitVal d, rest)
      else none
  | _ => none

/-- Consume one expected character. -/
def expectChar (c : Char) : List Char → Option (List Char)
  | x :: rest => if x = c then some rest else none
  | [] => none

/-- Length of the month in the proleptic Gregorian calendar. -/
def daysInMonth (y m : Nat) : Nat :=
  if m = 2 then
    if y % 4 = 0 && (y % 100 != 0 || y % 400 = 0) then 29 else 28
  else if m = 4 || m = 6 || m = 9 || m = 11 then 30
  else 31

/-- Days since 1970-01-01 of a proleptic Gregorian date
(Howard Hinnant's `days_from_civil`). -/
def daysFromCivil (y m d : Int) : Int :=
  let y2 := if m ≤ 2 then y - 1 else y
  let era := (if y2 ≥ 0 then y2 else y2 - 399) / 400
  let yoe := y2 - era * 400
  let mp := Int.emod (m + 9) 12
  let doy := (153 * mp + 2) / 5 + d - 1
  let doe := yoe * 365 + yoe / 4 - yoe / 100 + doy
  era * 146097 + doe - 719468

/-- Inverse of `daysFromCivil` (Howard Hinnant's `civil_from_days`). -/
def civilFromDays (days : Int) : Int × Int × Int :=
  let z := days + 719468
  let era := (if z ≥ 0 then z else z - 146096) / 146097
  let doe := z - era * 146097
  let yoe := (doe - doe / 1460 + doe / 36524 - doe / 146096) / 365
  let y := yoe + era * 400
  let doy := doe - (365 * yoe + yoe / 4 - yoe / 100)
  let mp := (5 * doy + 2) / 153
  let d := doy - (153 * mp + 2) / 5 + 1
  let m := mp + (if mp < 10 then 3 else -9)
  (y + (if m ≤ 2 then 1 else 0), m, d)

/-- Trailing `±HH:MM` UTC offset in minutes; an absent offset (a naive
datetime) is modelled as UTC (the source's `astimezone` would apply the
process-local zone there, which a pure model cannot observe). -/
def parseOffsetMinutes : List Char → Option Int
  | [] => some 0
  | '+' :: r => do
      let (oh, r) ← parse2 r
      let r ← expectChar ':' r
      let (om, r) ← parse2 r
      if r.isEmpty && oh ≤ 23 && om ≤ 59 then some ((oh : Int) * 60 + om) else none
  | '-' :: r => do
      let (oh, r) ← parse2 r
      let r ← expectChar ':' r
      let (om, r) ← parse2 r
      if r.isEmpty && oh ≤ 23 && om ≤ 59 then some (-((oh : Int) * 60 + om)) else none
  | _ => none

/-- Optional fractional-seconds field `.d+`, whose digits are consumed and
discarded (the render format below has whole seconds only). -/
def dropFraction : List Char → Option (List Char)
  | '.' :: r =>
      let ds := r.takeWhile Char.isDigit
      if ds.isEmpty then none else some (r.drop ds.length)
  | r => some r

/-- Time-of-day and offset part `HH:MM[:SS[.f]][±HH:MM]` in seconds since
midnight minus the offset (in seconds). -/
def parseTimePart : List Char → Option Int
  | [] => some 0
  | sep :: r =>
      if sep = 'T' || sep = ' ' then do
        let (h, r) ← parse2 r
        let r ← expectChar ':' r
        let (mi, r) ← parse2 r
        let (ss, r) ← (match expectChar ':' r with
          | some r2 => do
              let (ss, r3) ← parse2 r2
              let r4 ← dropFraction r3
              pure (ss, r4)
          | none => pure (0, r))
        let off ← parseOffsetMinutes r
        if h ≤ 23 && mi ≤ 59 && ss ≤ 59 then
          some ((h : Int) * 3600 + (mi : Int) * 60 + (ss : Int) - off * 60)
        else none
      else none

/-- `datetime.fromisoformat` model restricted to the ISO-8601 shapes the
backend emits: `YYYY-MM-DD[{T or space}HH:MM[:SS[.f]][±HH:MM]]`, returned
as seconds since the epoch in UTC; `none` models `ValueError`. -/
def isoToEpoch (cs : List Char) : Option Int := do
  let (y, r) ← parse4 cs
  let r ← expectChar '-' r
  let (mo, r) ← parse2 r
  let r ← expectChar '-' r
  let (dy, r) ← parse2 r
  if 1 ≤ mo && mo ≤ 12 && 1 ≤ dy && dy ≤ daysInMonth y mo then do
    let tsec ← parseTimePart r
    pure (daysFromCivil (y : Int) (mo : Int) (dy : Int) * 86400 + tsec)
  else none

/-- Left-pad a natural number's decimal form with zeros to the given width. -/
def padNat (width n : Nat) : String :=
  let s := toString n
  ⟨List.replicate (width - s.data.length) '0' ++ s.data⟩

/-- `strftime("%Y-%m-%d %H:%M:%S UTC")` of an epoch second count. -/
def renderUtcEpoch (t : Int) : String :=
  let day := Int.ediv t 86400
  let sod := (Int.emod t 86400).toNat
  let ymd := civilFromDays day
  padNat 4 ymd.1.toNat ++ "-" ++ padNat 2 ymd.2.1.toNat ++ "-" ++ padNat 2 ymd.2.2.toNat ++
    " " ++ padNat 2 (sod / 3600) ++ ":" ++ padNat 2 (sod % 3600 / 60) ++ ":" ++
    padNat 2 (sod % 60) ++ " UTC"

/-- Source `_fmt_ts(ts)`: `"-"` for a falsy value; a string is parsed as ISO
8601 (after `Z` → `+00:00`) and rendered as a UTC timestamp, and returned
unchanged when parsing fails; a truthy non-string makes `ts.replace` raise
inside the function's own `try`, so the value itself is returned (its
conversion to text happens in the caller's f-string, modelled by
`pyStrVal`). -/
def fmt_ts (ts : JVal) : String :=
  if pyTruthy ts = false then "-"
  else
    match ts with
    | .str s =>
        match isoToEpoch (replaceZChar s.data) with
        | some t => renderUtcEpoch t
        | none => s
    | v => pyStrVal v

/-- Source `compute_risk_score(metrics)`: the backend score under
`"risk_score"` when that key is present in a dict, else the weighted
fallback over the alias chains; a non-dict input reaches `metrics.get`
and raises (`Except.error`). -/
def compute_risk_score (metrics : JVal) : Except String Int :=
  match metrics with
  | .dict kvs =>
      if (lookupJ kvs "risk_score").isSome then
        .ok (safe_int (pyGet kvs "risk_score") 0)
      else
        let mm := safe_int (pyOr (pyGet kvs "missing_manager_count") (pyGet kvs "missing_managers")) 0
        let inv := safe_int (pyOr (pyGet kvs "invalid_org_count") (pyGet kvs "invalid_org")) 0
        let me := safe_int (pyOr (pyGet kvs "missing_email_count") (pyGet kvs "missing_emails")) 0
        let iu := safe_int (pyOr (pyGet kvs "inactive_users") (pyGet kvs "inactive_user_count")) 0
        .ok (mm * 2 + inv * 1 + me * 1 + iu * 1)
  | _ => .error "AttributeError: get"

/-- Dict returned by `metrics_kpis`, with one field per literal key of the
source's result dict. -/
structure Kpis where
  active_users : Int
  empjob_rows : Int
  missing_managers : Int
  invalid_org : Int
  missing_emails : Int
  contingent_workers : Int
  inactive_users : Int
  snapshot_time_utc : JVal
  raw : List (String × JVal)

/-- Source `metrics_kpis(metrics)`: normalize backend keys to UI keys via
`or`-fallback alias chains and `_safe_int`. -/
def metrics_kpis (metrics : JVal) : Kpis :=
  let m := safe_dict metrics
  ⟨safe_int (pyOr (pyGet m "active_users") (pyGet m "users_active")) 0,
   safe_int (pyOr (pyOr (pyOr (pyGet m "empjob_rows") (pyGet m "current_empjob_rows"))
       (pyGet m "empJob_rows")) (pyGet m "empjob_count")) 0,
   safe_int (pyOr (pyGet m "missing_manager_count") (pyGet m "missing_managers")) 0,
   safe_int (pyOr (pyOr (pyGet m "invalid_org_count") (pyGet m "invalid_org"))
       (pyGet m "invalid_org_assignments")) 0,
   safe_int (pyOr (pyGet m "missing_email_count") (pyGet m "missing_emails")) 0,
   safe_int (pyOr (pyGet m "contingent_workers") (pyGet m "contingent_worker_count")) 0,
   safe_int (pyOr (pyOr (pyGet m "inactive_users") (pyGet m "inactive_user_count"))
       (pyGet m "users_inactive")) 0,
   pyOr (pyOr (pyGet m "snapshot_time_utc") (pyGet m "snapshotTimeUtc")) (.str ""),
   m⟩

/-- Source `_pick_sample(raw, *keys)`: value of the first key bound to a
list; `[]` when none is. -/
def pick_sample (raw : List (String × JVal)) : List String → List JVal
  | [] => []
  | k :: ks =>
      match pyGet raw k with
      | .list xs => xs
      | _ => pick_sample raw ks

/-- Source constant `REQUEST_TIMEOUT`. -/
def REQUEST_TIMEOUT : Nat := 60

/-- Observable behaviour of a `requests` response object: HTTP status,
the value of `r.headers.get("content-type", "") or ""`, the result of
`r.json()` (`Except.error` when the body is not valid JSON), and `r.text`. -/
structure HttpResponse where
  status_code : Nat
  content_type : String
  body_json : Except String JVal
  text : String

/-- Outcome of issuing an HTTP call with `requests`: either the library
raised (connection error, timeout, ...) or a response came back. -/
inductive ReqOutcome where
  | exn (e : String)
  | resp (r : HttpResponse)

/-- Request as constructed by the wrappers: method, URL, optional JSON
body, timeout in seconds. -/
structure HttpRequest where
  method : String
  url : String
  json_body : Option JVal
  timeout : Nat

/-- Python `v.get(k)` where `v` may not be a dict: non-dicts raise
`AttributeError`. -/
def pyGetE (v : JVal) (k : String) : Except String JVal :=
  match v with
  | .dict kvs => .ok (pyGet kvs k)
  | _ => .error "AttributeError: get"

/-- Python `v == "s"`: only a string can equal a string literal. -/
def pyEqStr (v : JVal) (s : String) : Bool :=
  match v with
  | .str t => t = s
  | _ => false

/-- Source `api_health(base_url)`, split at the effect boundary: given the
outcome of `requests.get(.../health)`, produce the `(ok, message)` pair.
The `except Exception` branch of the source is the `.exn` case. -/
def api_health (o : ReqOutcome) : Bool × String :=
  match o with
  | .exn e => (false, "Backend unreachable ❌ (" ++ e ++ ")")
  | .resp r =>
      if r.status_code = 200 then (true, "Backend reachable ✅")
      else (false, "Backend not healthy (HTTP " ++ toString r.status_code ++ ")")

/-- Request issued by `api_health`. -/
def api_health_request (base_url : String) : HttpRequest :=
  ⟨"GET", rstripSlashes base_url ++ "/health", none, REQUEST_TIMEOUT⟩

/-- Body of `api_run_now`'s 200-branch: `r.json()` only when the
content type holds `"application/json"` (else `{}`), then
`data.get("snapshot_time_utc") or ""` rendered through `_fmt_ts`; any
raise inside is an `Except.error` caught by the caller. -/
def run_now_body (r : HttpResponse) : Except String String :=
  match (if strContains "application/json" r.content_type then r.body_json else .ok (.dict [])) with
  | .error err => .error err
  | .ok data =>
      match pyGetE data "snapshot_time_utc" with
      | .error err => .error err
      | .ok ts => .ok ("Run complete ✅ (" ++ fmt_ts (pyOr ts (.str "")) ++ ")")

/-- Source `api_run_now(base_url)`, split at the effect boundary: the
response handler for the outcome of `requests.post(.../run)`. -/
def api_run_now (o : ReqOutcome) : Bool × String :=
  match o with
  | .exn e => (false, "Run failed ❌ (" ++ e ++ ")")
  | .resp r =>
      if r.status_code = 200 then
        match run_now_body r with
        | .ok msg => (true, msg)
        | .error e => (false, "Run failed ❌ (" ++ e ++ ")")
      else (false, "Run failed (HTTP " ++ toString r.status_code ++ "): " ++ strTake r.text 200)

/-- Request issued by `api_run_now`: `requests.post(f"{base}/run",
timeout=REQUEST_TIMEOUT)` — no `json=` payload is passed. -/
def api_run_now_request (base_url : String) : HttpRequest :=
  ⟨"POST", rstripSlashes base_url ++ "/run", none, REQUEST_TIMEOUT⟩

/-- Body of `api_latest`'s 200-branch: `data = r.json()`, the
`status == "empty"` discriminator, then `data.get("metrics") or {}`. -/
def latest_body (r : HttpResponse) : Except String (Bool × Option JVal × String) :=
  match r.body_json with
  | .error err => .error err
  | .ok data =>
      match pyGetE data "status" with
      | .error err => .error err
      | .ok st =>
          if pyEqStr st "empty" then
            .ok (false, none, "No snapshots yet. Click **Run live check now**.")
          else
            match pyGetE data "metrics" with
            | .error err => .error err
            | .ok mv => .ok (true, some (pyOr mv (.dict [])), "Latest snapshot loaded ✅")

/-- Source `api_latest(base_url)`, split at the effect boundary: the
response handler for the outcome of `requests.get(.../metrics/latest)`. -/
def api_latest (o : ReqOutcome) : Bool × Option JVal × String :=
  match o with
  | .exn e => (false, none, "Fetch failed ❌ (" ++ e ++ ")")
  | .resp r =>
      if r.status_code ≠ 200 then
        (false, none, "Fetch failed (HTTP " ++ toString r.status_code ++ "): " ++ strTake r.text 200)
      else
        match latest_body r with
        | .ok v => v
        | .error e => (false, none, "Fetch failed ❌ (" ++ e ++ ")")

/-- Source `ALLOWED_FILES` allowlist of `tools/ai_update.py`. -/
def ALLOWED_FILES : List String :=
  ["app.py", "gates.py", "main.py", "requirements.txt", "README.md"]

/-- Source `write_changes(changes)` of `tools/ai_update.py`, with the
filesystem passed explicitly as a map from path to file content.  Each
change record is a decoded JSON dict; a record is skipped unless its
`"path"` is a nonempty string in `ALLOWED_FILES` and its `"content"` is a
string, in which case `Path(path).write_text(content)` updates the map and
the path is appended to the returned list. -/
def write_changes : List (List (String × JVal)) → (String → Option String) →
    ((String → Option String) × List String)
  | [], fs => (fs, [])
  | ch :: rest, fs =>
      match pyGet ch "path", pyGet ch "content" with
      | .str p, content =>
          if p = "" then write_changes rest fs
          else if p ∈ ALLOWED_FILES then
            match content with
            | .str c =>
                let next := write_changes rest (fun q => if q = p then some c else fs q)
                (next.1, p :: next.2)
            | _ => write_changes rest fs
          else write_changes rest fs
      | _, _ => write_changes rest fs

/-- Claimed property of the run request (stated from the spec's words, for
comparison with `api_run_now_request`): the POST carries a JSON body with
the seven connection fields. -/
def runBodyHasConnectionFields (req : HttpRequest) : Prop :=
  ∃ kvs, req.json_body = some (.dict kvs) ∧
    (lookupJ kvs "instance_url").isSome ∧ (lookupJ kvs "api_base_url").isSome ∧
    (lookupJ kvs "username").isSome ∧ (lookupJ kvs "password").isSome ∧
    (lookupJ kvs "company_id").isSome ∧ (lookupJ kvs "timeout").isSome ∧
    (lookupJ kvs "verify_ssl").isSome

/-- Claimed error message of the run wrapper (stated from the spec's words,
for comparison with `api_run_now`): on HTTP ≥ 400, surface the JSON
`detail` field when present, else the truncated raw body, prefixed with the
HTTP status. -/
def run_error_message_claimed (r : HttpResponse) : String :=
  let detail : Option String :=
    match r.body_json with
    | .ok (.dict kvs) =>
        match lookupJ kvs "detail" with
        | some (.str d) => some d
        | _ => none
    | _ => none
  "Run failed (HTTP " ++ toString r.status_code ++ "): " ++
    (match detail with
     | some d => d
     | none => strTake r.text 200)

/-- The value as a list, when it is one. -/
def asListOpt : JVal → Option (List JVal)
  | .list xs => some xs
  | _ => none

/-- Path a single change record causes to be written, if any: the record's
`"path"` must be a nonempty string in `ALLOWED_FILES` and its `"content"` a
string. -/
def written_path (ch : List (String × JVal)) : Option String :=
  match pyGet ch "path" with
  | .str p =>
      if p = "" then none
      else if p ∈ ALLOWED_FILES then
        match pyGet ch "content" with
        | .str _ => some p
        | _ => none
      else none
  | _ => none

/-- String content a change record would write (meaningful only when
`written_path` succeeds). -/
def written_content (ch : List (String × JVal)) : String :=
  match pyGet ch "content" with
  | .str c => c
  | _ => ""

/-- Raw payload carrying the given values under the primary snake_case key
of each alias chain of `metrics_kpis` and `_pick_sample`. -/
def payloadSnake (a e mm inv me cw iu ts s1 s2 s3 s4 s5 s6 : JVal) :
    List (String × JVal) :=
  [("active_users", a), ("empjob_rows", e), ("missing_manager_count", mm),
   ("invalid_org_count", inv), ("missing_email_count", me),
   ("contingent_workers", cw), ("inactive_users", iu),
   ("snapshot_time_utc", ts), ("missing_email_sample", s1),
   ("duplicate_email_sample", s2), ("missing_manager_sample", s3),
   ("invalid_org_sample", s4), ("inactive_users_sample", s5),
   ("contingent_workers_sample", s6)]

/-- The same values under the historical alias key of each chain: the
camelCase alias where the source has one (`empJob_rows`, `snapshotTimeUtc`
and the six camelCase sample keys), else the alternate historical
snake_case alias. -/
def payloadAlias (a e mm inv me cw iu ts s1 s2 s3 s4 s5 s6 : JVal) :
    List (String × JVal) :=
  [("users_active", a), ("empJob_rows", e), ("missing_managers", mm),
   ("invalid_org_assignments", inv), ("missing_emails", me),
   ("contingent_worker_count", cw), ("users_inactive", iu),
   ("snapshotTimeUtc", ts), ("missingEmailsSample", s1),
   ("duplicateEmailsSample", s2), ("missingManagersSample", s3),
   ("invalidOrgSample", s4), ("inactiveUsersSample", s5),
   ("contingentWorkersSample", s6)]

/-! Helper lemmas shared by the claim theorems. -/

/-- A falsy value coerces to the default 0 under `_safe_int`. -/
theorem safe_int_falsy (v : JVal) (h : pyTruthy v = false) : safe_int v 0 = 0 := by
  cases v with
  | null => rfl
  | bool b =>
      simp [pyTruthy] at h
      simp [safe_int, pyInt, h]
  | int n =>
      simp [pyTruthy] at h
      simp [safe_int, pyInt, h]
  | str s =>
      simp [pyTruthy] at h
      subst h
      decide
  | list xs => simp [safe_int, pyInt]
  | dict kvs => simp [safe_int, pyInt]

/-- `None` is falsy. -/
theorem pyTruthy_null : pyTruthy .null = false := rfl

/-- `_safe_int(None, 0)` is 0. -/
theorem safe_int_null : safe_int .null 0 = 0 := rfl

/-- Swapping a value from the first to the second slot of an `or`-chain of
length two (the other slot absent) does not change the coerced result. -/
theorem safe_int_or_swap2 (v : JVal) :
    safe_int (pyOr v .null) 0 = safe_int (pyOr .null v) 0 := by
  cases h : pyTruthy v with
  | true => simp [pyOr, h, pyTruthy_null]
  | false =>
      simp [pyOr, h, pyTruthy_null, safe_int_null]
      exact (safe_int_falsy v h).symm

/-- Same swap for a chain of length three (first slot versus last slot). -/
theorem safe_int_or_swap3 (v : JVal) :
    safe_int (pyOr (pyOr v .null) .null) 0 =
      safe_int (pyOr (pyOr .null .null) v) 0 := by
  cases h : pyTruthy v with
  | true => simp [pyOr, h, pyTruthy_null]
  | false =>
      simp [pyOr, h, pyTruthy_null, safe_int_null]
      exact (safe_int_falsy v h).symm

/-- Same swap for a chain of length four (first slot versus third slot). -/
theorem safe_int_or_swap4 (v : JVal) :
    safe_int (pyOr (pyOr (pyOr v .null) .null) .null) 0 =
      safe_int (pyOr (pyOr (pyOr .null .null) v) .null) 0 := by
  cases h : pyTruthy v with
  | true => simp [pyOr, h, pyTruthy_null]
  | false => simp [pyOr, h, pyTruthy_null]

/-- Swapping the slot of the snapshot-time value before the `or ""` default
does not change the resolved value. -/
theorem pyOr_ts_swap (v : JVal) :
    pyOr (pyOr v .null) (.str "") = pyOr (pyOr .null v) (.str "") := by
  cases h : pyTruthy v with
  | true => simp [pyOr, h, pyTruthy_null]
  | false => simp [pyOr, h, pyTruthy_null]

/-- A successful lookup returns a stored value of the dictionary. -/
theorem lookupJ_mem (m : List (String × JVal)) (k : String) (v : JVal)
    (h : lookupJ m k = some v) : ∃ k', (k', v) ∈ m := by
  induction m with
  | nil => simp [lookupJ] at h
  | cons p rest ih =>
      rw [lookupJ] at h
      by_cases hk : p.1 = k
      · rw [if_pos hk] at h
        exact ⟨p.1, by obtain ⟨_, _⟩ := p; cases h; exact List.mem_cons_self _ _⟩
      · rw [if_neg hk] at h
        obtain ⟨k', hm⟩ := ih h
        exact ⟨k', List.mem_cons_of_mem _ hm⟩

/-- When every stored value of a dict coerces to a non-negative integer,
so does any `m.get(k)`. -/
theorem safe_int_pyGet_nonneg (m : List (String × JVal))
    (h : ∀ p ∈ m, 0 ≤ safe_int p.2 0) (k : String) :
    0 ≤ safe_int (pyGet m k) 0 := by
  unfold pyGet
  cases hlk : lookupJ m k with
  | none => simp [safe_int]
  | some v =>
      obtain ⟨k', hm⟩ := lookupJ_mem m k v hlk
      simpa using h (k', v) hm

/-- `pyOr` preserves non-negative coercion. -/
theorem safe_int_pyOr_nonneg {a b : JVal} (ha : 0 ≤ safe_int a 0)
    (hb : 0 ≤ safe_int b 0) : 0 ≤ safe_int (pyOr a b) 0 := by
  unfold pyOr
  split
  · exact ha
  · exact hb

/-- C1 counterexample: `metrics_kpis` does not guarantee non-negative KPI
fields — a negative upstream value passes through `_safe_int` unchanged. -/
theorem metrics_kpis_negative_passthrough :
    ¬ (0 ≤ (metrics_kpis (.dict [("active_users", .int (-1))])).active_users) := by
  decide

/-- C1 (amended): `metrics_kpis` is total on every input and each canonical
KPI output field is an integer; the fields are moreover all non-negative
whenever every value stored in the input dict coerces to a non-negative
integer (absent, `None` and non-coercible values count as 0).  The original
`>= 0` guarantee fails unconditionally because a negative upstream value is
passed through with its sign. -/
theorem metrics_kpis_nonneg_under_nonneg_inputs (metrics : JVal)
    (h : ∀ p ∈ safe_dict metrics, 0 ≤ safe_int p.2 0) :
    0 ≤ (metrics_kpis metrics).active_users ∧
    0 ≤ (metrics_kpis metrics).empjob_rows ∧
    0 ≤ (metrics_kpis metrics).missing_managers ∧
    0 ≤ (metrics_kpis metrics).invalid_org ∧
    0 ≤ (metrics_kpis metrics).missing_emails ∧
    0 ≤ (metrics_kpis metrics).contingent_workers ∧
    0 ≤ (metrics_kpis metrics).inactive_users := by
  have g := safe_int_pyGet_nonneg (safe_dict metrics) h
  exact ⟨safe_int_pyOr_nonneg (g "active_users") (g "users_active"),
    safe_int_pyOr_nonneg (safe_int_pyOr_nonneg
      (safe_int_pyOr_nonneg (g "empjob_rows") (g "current_empjob_rows"))
      (g "empJob_rows")) (g "empjob_count"),
    safe_int_pyOr_nonneg (g "missing_manager_count") (g "missing_managers"),
    safe_int_pyOr_nonneg (safe_int_pyOr_nonneg (g "invalid_org_count")
      (g "invalid_org")) (g "invalid_org_assignments"),
    safe_int_pyOr_nonneg (g "missing_email_count") (g "missing_emails"),
    safe_int_pyOr_nonneg (g "contingent_workers") (g "contingent_worker_count"),
    safe_int_pyOr_nonneg (safe_int_pyOr_nonneg (g "inactive_users")
      (g "inactive_user_count")) (g "users_inactive")⟩

/-- C1 witness: the amended theorem applied to a concrete payload with an
integer field and a stringified-number field. -/
theorem metrics_kpis_nonneg_witness :
    0 ≤ (metrics_kpis (JVal.dict [("active_users", JVal.int 3),
      ("missing_managers", JVal.str "7")])).active_users :=
  (metrics_kpis_nonneg_under_nonneg_inputs
    (JVal.dict [("active_users", JVal.int 3), ("missing_managers", JVal.str "7")])
    (by decide)).1

/-- C4 counterexample: the POST issued by `api_run_now` carries no JSON
body at all, so it does not contain the claimed connection fields. -/
theorem api_run_now_request_no_connection_body :
    ¬ runBodyHasConnectionFields (api_run_now_request "https://backend.example") := by
  rintro ⟨kvs, hbody, -⟩
  exact Option.noConfusion hbody

/-- C4 (amended): `api_run_now` issues `POST {base}/run` with the default
60-second timeout and no JSON body; the connection fields of the spec's
idealized contract are not sent. -/
theorem api_run_now_request_shape (base_url : String) :
    (api_run_now_request base_url).method = "POST" ∧
    (api_run_now_request base_url).url = rstripSlashes base_url ++ "/run" ∧
    (api_run_now_request base_url).json_body = none ∧
    (api_run_now_request base_url).timeout = 60 :=
  ⟨rfl, rfl, rfl, rfl⟩

/-- C7 counterexample: with no snapshot-time alias present the normalized
`snapshot_time_utc` is the empty string, not `"unknown"`. -/
theorem snapshot_time_not_unknown :
    (metrics_kpis (.dict [])).snapshot_time_utc ≠ .str "unknown" := by
  intro h
  have h2 : JVal.str "" = JVal.str "unknown" := h
  exact absurd (JVal.str.inj h2) (by decide)

/-- C7 (amended): for every input whose dict part binds neither
`snapshot_time_utc` nor `snapshotTimeUtc`, the normalized
`snapshot_time_utc` field is the empty string `""` (the UI's `_fmt_ts`
renders it as `"-"`); it is never the literal `"unknown"`. -/
theorem snapshot_time_default_empty (metrics : JVal)
    (h1 : lookupJ (safe_dict metrics) "snapshot_time_utc" = none)
    (h2 : lookupJ (safe_dict metrics) "snapshotTimeUtc" = none) :
    (metrics_kpis metrics).snapshot_time_utc = .str "" := by
  simp [metrics_kpis, pyGet, h1, h2, pyOr, pyTruthy_null]

/-- C7 witness: the amended theorem applied to the empty payload. -/
theorem snapshot_time_default_empty_witness :
    (metrics_kpis (.dict [])).snapshot_time_utc = .str "" :=
  snapshot_time_default_empty (.dict []) rfl rfl

/-- C8: `_pick_sample` returns the value of the first alias key whose value
is a list (a present non-list is skipped exactly like an absent key), and
the empty list when no alias resolves to one; as a total function it never
raises. -/
theorem pick_sample_first_list_or_empty (raw : List (String × JVal))
    (keys : List String) :
    pick_sample raw keys =
      ((keys.findSome? fun k => asListOpt (pyGet raw k)).getD []) := by
  induction keys with
  | nil => rfl
  | cons k ks ih =>
      cases h : pyGet raw k <;>
        simp [pick_sample, List.findSome?, asListOpt, h, ih]

/-- C9: on a dict input `compute_risk_score` never raises; it returns the
integer coercion (default 0) of the `"risk_score"` value whenever that key
is present, else the weighted fallback `2*mm + inv + me + iu` with each
term resolved through its `or`-alias chain and defaulting to 0. -/
theorem compute_risk_score_characterization (kvs : List (String × JVal)) :
    compute_risk_score (.dict kvs) =
      .ok (if (lookupJ kvs "risk_score").isSome then
            safe_int (pyGet kvs "risk_score") 0
          else
            2 * safe_int (pyOr (pyGet kvs "missing_manager_count")
                  (pyGet kvs "missing_managers")) 0
              + safe_int (pyOr (pyGet kvs "invalid_org_count")
                  (pyGet kvs "invalid_org")) 0
              + safe_int (pyOr (pyGet kvs "missing_email_count")
                  (pyGet kvs "missing_emails")) 0
              + safe_int (pyOr (pyGet kvs "inactive_users")
                  (pyGet kvs "inactive_user_count")) 0) := by
  cases hc : (lookupJ kvs "risk_score").isSome with
  | true => simp [compute_risk_score, hc]
  | false =>
      simp [compute_risk_score, hc]
      ring

/-- C2: every backend-call wrapper converts a raised exception into a
structured `(ok, message)`-style value: a network-level raise (`.exn`) and
a raise during response handling (here, `r.json()` failing on a 200
response) both yield `ok = false` with a message embedding the exception
text; nothing propagates, since the handlers are total functions into
their result tuples. -/
theorem api_wrappers_catch_exceptions (e : String) (r : HttpResponse)
    (hs : r.status_code = 200) (hj : r.body_json = .error e)
    (hct : strContains "application/json" r.content_type = true) :
    api_health (.exn e) = (false, "Backend unreachable ❌ (" ++ e ++ ")") ∧
    api_run_now (.exn e) = (false, "Run failed ❌ (" ++ e ++ ")") ∧
    api_latest (.exn e) = (false, none, "Fetch failed ❌ (" ++ e ++ ")") ∧
    api_run_now (.resp r) = (false, "Run failed ❌ (" ++ e ++ ")") ∧
    api_latest (.resp r) = (false, none, "Fetch failed ❌ (" ++ e ++ ")") := by
  refine ⟨rfl, rfl, rfl, ?_, ?_⟩
  · simp [api_run_now, run_now_body, hs, hj, hct]
  · simp [api_latest, latest_body, hs, hj]

/-- C2 witness: the wrapper theorem applied to a concrete exception text
and a concrete 200 response whose JSON body fails to decode. -/
theorem api_wrappers_catch_exceptions_witness :
    api_health (.exn "boom") = (false, "Backend unreachable ❌ (boom)") ∧
    api_run_now (.exn "boom") = (false, "Run failed ❌ (boom)") ∧
    api_latest (.exn "boom") = (false, none, "Fetch failed ❌ (boom)") ∧
    api_run_now (.resp ⟨200, "application/json", .error "boom", ""⟩) =
      (false, "Run failed ❌ (boom)") ∧
    api_latest (.resp ⟨200, "application/json", .error "boom", ""⟩) =
      (false, none, "Fetch failed ❌ (boom)") :=
  api_wrappers_catch_exceptions "boom" ⟨200, "application/json", .error "boom", ""⟩
    rfl rfl (by decide)

/-- C3: a raw payload keyed by the primary snake_case names and the payload
carrying the same values under the historical alias names (camelCase where
one exists) normalize to identical canonical KPI values, the identical
resolved snapshot time, and identical sample picks. -/
theorem metrics_kpis_alias_roundtrip (a e mm inv me cw iu ts s1 s2 s3 s4 s5 s6 : JVal) :
    (metrics_kpis (.dict (payloadSnake a e mm inv me cw iu ts s1 s2 s3 s4 s5 s6))).active_users =
      (metrics_kpis (.dict (payloadAlias a e mm inv me cw iu ts s1 s2 s3 s4 s5 s6))).active_users ∧
    (metrics_kpis (.dict (payloadSnake a e mm inv me cw iu ts s1 s2 s3 s4 s5 s6))).empjob_rows =
      (metrics_kpis (.dict (payloadAlias a e mm inv me cw iu ts s1 s2 s3 s4 s5 s6))).empjob_rows ∧
    (metrics_kpis (.dict (payloadSnake a e mm inv me cw iu ts s1 s2 s3 s4 s5 s6))).missing_managers =
      (metrics_kpis (.dict (payloadAlias a e mm inv me cw iu ts s1 s2 s3 s4 s5 s6))).missing_managers ∧
    (metrics_kpis (.dict (payloadSnake a e mm inv me cw iu ts s1 s2 s3 s4 s5 s6))).invalid_org =
      (metrics_kpis (.dict (payloadAlias a e mm inv me cw iu ts s1 s2 s3 s4 s5 s6))).invalid_org ∧
    (metrics_kpis (.dict (payloadSnake a e mm inv me cw iu ts s1 s2 s3 s4 s5 s6))).missing_emails =
      (metrics_kpis (.dict (payloadAlias a e mm inv me cw iu ts s1 s2 s3 s4 s5 s6))).missing_emails ∧
    (metrics_kpis (.dict (payloadSnake a e mm inv me cw iu ts s1 s2 s3 s4 s5 s6))).contingent_workers =
      (metrics_kpis (.dict (payloadAlias a e mm inv me cw iu ts s1 s2 s3 s4 s5 s6))).contingent_workers ∧
    (metrics_kpis (.dict (payloadSnake a e mm inv me cw iu ts s1 s2 s3 s4 s5 s6))).inactive_users =
      (metrics_kpis (.dict (payloadAlias a e mm inv me cw iu ts s1 s2 s3 s4 s5 s6))).inactive_users ∧
    (metrics_kpis (.dict (payloadSnake a e mm inv me cw iu ts s1 s2 s3 s4 s5 s6))).snapshot_time_utc =
      (metrics_kpis (.dict (payloadAlias a e mm inv me cw iu ts s1 s2 s3 s4 s5 s6))).snapshot_time_utc ∧
    pick_sample (payloadSnake a e mm inv me cw iu ts s1 s2 s3 s4 s5 s6)
        ["missing_email_sample", "missing_emails_sample", "missingEmailsSample"] =
      pick_sample (payloadAlias a e mm inv me cw iu ts s1 s2 s3 s4 s5 s6)
        ["missing_email_sample", "missing_emails_sample", "missingEmailsSample"] ∧
    pick_sample (payloadSnake a e mm inv me cw iu ts s1 s2 s3 s4 s5 s6)
        ["duplicate_email_sample", "duplicate_emails_sample", "duplicateEmailsSample"] =
      pick_sample (payloadAlias a e mm inv me cw iu ts s1 s2 s3 s4 s5 s6)
        ["duplicate_email_sample", "duplicate_emails_sample", "duplicateEmailsSample"] ∧
    pick_sample (payloadSnake a e mm inv me cw iu ts s1 s2 s3 s4 s5 s6)
        ["missing_manager_sample", "missing_managers_sample", "missingManagersSample"] =
      pick_sample (payloadAlias a e mm inv me cw iu ts s1 s2 s3 s4 s5 s6)
        ["missing_manager_sample", "missing_managers_sample", "missingManagersSample"] ∧
    pick_sample (payloadSnake a e mm inv me cw iu ts s1 s2 s3 s4 s5 s6)
        ["invalid_org_sample", "invalidOrgSample"] =
      pick_sample (payloadAlias a e mm inv me cw iu ts s1 s2 s3 s4 s5 s6)
        ["invalid_org_sample", "invalidOrgSample"] ∧
    pick_sample (payloadSnake a e mm inv me cw iu ts s1 s2 s3 s4 s5 s6)
        ["inactive_users_sample", "inactiveUsersSample"] =
      pick_sample (payloadAlias a e mm inv me cw iu ts s1 s2 s3 s4 s5 s6)
        ["inactive_users_sample", "inactiveUsersSample"] ∧
    pick_sample (payloadSnake a e mm inv me cw iu ts s1 s2 s3 s4 s5 s6)
        ["contingent_workers_sample", "contingentWorkersSample"] =
      pick_sample (payloadAlias a e mm inv me cw iu ts s1 s2 s3 s4 s5 s6)
        ["contingent_workers_sample", "contingentWorkersSample"] := by
  refine ⟨safe_int_or_swap2 a, safe_int_or_swap4 e, safe_int_or_swap2 mm,
    safe_int_or_swap3 inv, safe_int_or_swap2 me, safe_int_or_swap2 cw,
    safe_int_or_swap3 iu, pyOr_ts_swap ts, ?_, ?_, ?_, ?_, ?_, ?_⟩
  · cases s1 <;> rfl
  · cases s2 <;> rfl
  · cases s3 <;> rfl
  · cases s4 <;> rfl
  · cases s5 <;> rfl
  · cases s6 <;> rfl

/-- C5 counterexample: on a 400 response whose JSON body has a `detail`
field, the run wrapper's message is the truncated raw body, not the
extracted `detail` value claimed by the spec. -/
theorem api_run_now_detail_not_extracted :
    api_run_now (.resp ⟨400, "application/json",
        .ok (.dict [("detail", .str "boom")]), "\x7b\"detail\": \"boom\"\x7d"⟩) ≠
      (false, run_error_message_claimed ⟨400, "application/json",
        .ok (.dict [("detail", .str "boom")]), "\x7b\"detail\": \"boom\"\x7d"⟩) := by
  decide

/-- C5 (amended): for every response with HTTP status ≥ 400 the run
wrapper returns `ok = false` with a message carrying the HTTP status code
and the raw response body truncated to 200 characters; the JSON `detail`
field is never specially extracted. -/
theorem api_run_now_error_truncated_raw (r : HttpResponse)
    (h : 400 ≤ r.status_code) :
    api_run_now (.resp r) =
      (false, "Run failed (HTTP " ++ toString r.status_code ++ "): " ++
        strTake r.text 200) := by
  have hne : ¬ (r.status_code = 200) := by omega
  simp [api_run_now, hne]

/-- C5 witness: the amended theorem applied to a concrete 404 response. -/
theorem api_run_now_error_truncated_raw_witness :
    api_run_now (.resp ⟨404, "", .ok .null, "oops"⟩) =
      (false, "Run failed (HTTP 404): oops") := by
  rw [api_run_now_error_truncated_raw ⟨404, "", .ok .null, "oops"⟩ (by decide)]
  decide

/-- C6: a 200 response to `GET /metrics/latest` whose JSON carries
`status == "empty"` yields the dedicated no-snapshot result — `ok = false`,
no metrics, and the prompt message — and that result is distinguished from
every HTTP-error and network-error result (whose messages always begin
with `"Fetch failed"`) and from every successfully loaded snapshot
(which has `ok = true`, even when all its KPI values are zero). -/
theorem api_latest_empty_distinct (kvs : List (String × JVal)) (ct text : String)
    (hst : pyGet kvs "status" = .str "empty") :
    api_latest (.resp ⟨200, ct, .ok (.dict kvs), text⟩) =
      (false, none, "No snapshots yet. Click **Run live check now**.") ∧
    (∀ r : HttpResponse, r.status_code ≠ 200 →
      (api_latest (.resp r)).2.2 ≠ "No snapshots yet. Click **Run live check now**.") ∧
    (∀ e : String,
      (api_latest (.exn e)).2.2 ≠ "No snapshots yet. Click **Run live check now**.") ∧
    (∀ o : ReqOutcome, (api_latest o).1 = true →
      api_latest o ≠ (false, none, "No snapshots yet. Click **Run live check now**.")) := by
  refine ⟨?_, ?_, ?_, ?_⟩
  · simp [api_latest, latest_body, pyGetE, hst, pyEqStr]
  · intro r hr h
    have h2 : (api_latest (.resp r)).2.2 =
        "Fetch failed (HTTP " ++ toString r.status_code ++ "): " ++ strTake r.text 200 := by
      simp [api_latest, hr]
    rw [h2] at h
    have h3 := congrArg (fun s => s.data.head?) h
    have h4 : (some 'F' : Option Char) = some 'N' := h3
    exact absurd h4 (by decide)
  · intro e h
    have h3 := congrArg (fun s => s.data.head?) h
    have h4 : (some 'F' : Option Char) = some 'N' := h3
    exact absurd h4 (by decide)
  · intro o h1 heq
    rw [heq] at h1
    exact absurd h1 (by decide)

/-- C6 witness: the theorem applied to a concrete empty-status response. -/
theorem api_latest_empty_distinct_witness :
    api_latest (.resp ⟨200, "", .ok (.dict [("status", .str "empty")]), ""⟩) =
      (false, none, "No snapshots yet. Click **Run live check now**.") :=
  (api_latest_empty_distinct [("status", JVal.str "empty")] "" "" rfl).1

/-- One step of `write_changes`, phrased through `written_path`: a record
either writes its allowlisted path (prepending it to the returned list and
updating the filesystem) or is skipped entirely. -/
theorem write_changes_cons (ch : List (String × JVal))
    (rest : List (List (String × JVal))) (fs : String → Option String) :
    write_changes (ch :: rest) fs =
      match written_path ch with
      | none => write_changes rest fs
      | some p =>
          ((write_changes rest (fun q => if q = p then some (written_content ch) else fs q)).1,
            p :: (write_changes rest
              (fun q => if q = p then some (written_content ch) else fs q)).2) := by
  cases hp : pyGet ch "path" with
  | str p =>
      by_cases hp0 : p = ""
      · simp [write_changes, written_path, hp, hp0]
      · by_cases hmem : p ∈ ALLOWED_FILES
        · cases hc : pyGet ch "content" <;>
            simp [write_changes, written_path, written_content, hp, hc, hp0, hmem]
        · simp [write_changes, written_path, hp, hp0, hmem]
  | null => simp [write_changes, written_path, hp]
  | bool b => simp [write_changes, written_path, hp]
  | int n => simp [write_changes, written_path, hp]
  | list xs => simp [write_changes, written_path, hp]
  | dict dkvs => simp [write_changes, written_path, hp]

/-- A path produced by `written_path` is in the allowlist. -/
theorem written_path_mem (ch : List (String × JVal)) (p : String)
    (h : written_path ch = some p) : p ∈ ALLOWED_FILES := by
  unfold written_path at h
  cases hp : pyGet ch "path" with
  | str q =>
      rw [hp] at h
      by_cases h0 : q = ""
      · simp [h0] at h
      · by_cases hm : q ∈ ALLOWED_FILES
        · cases hc : pyGet ch "content" with
          | str c =>
              rw [hc] at h
              simp [h0, hm] at h
              exact h ▸ hm
          | null => rw [hc] at h; simp [h0, hm] at h
          | bool b2 => rw [hc] at h; simp [h0, hm] at h
          | int n2 => rw [hc] at h; simp [h0, hm] at h
          | list xs2 => rw [hc] at h; simp [h0, hm] at h
          | dict dkvs2 => rw [hc] at h; simp [h0, hm] at h
        · simp [h0, hm] at h
  | null => rw [hp] at h; exact Option.noConfusion h
  | bool b => rw [hp] at h; exact Option.noConfusion h
  | int n => rw [hp] at h; exact Option.noConfusion h
  | list xs => rw [hp] at h; exact Option.noConfusion h
  | dict dkvs => rw [hp] at h; exact Option.noConfusion h

/-- C10: `write_changes` writes exactly the records whose `"path"` is a
nonempty string in `ALLOWED_FILES` with a string `"content"`; the returned
list is exactly those paths in order, only allowlisted paths ever appear
in it, and every path outside the returned list keeps its previous file
content. -/
theorem write_changes_frame (changes : List (List (String × JVal)))
    (fs : String → Option String) :
    (write_changes changes fs).2 = changes.filterMap written_path ∧
    (∀ q, q ∉ (write_changes changes fs).2 → (write_changes changes fs).1 q = fs q) ∧
    (∀ q, q ∈ (write_changes changes fs).2 → q ∈ ALLOWED_FILES) := by
  induction changes generalizing fs with
  | nil => exact ⟨rfl, fun q _ => rfl, fun q hq => absurd hq (List.not_mem_nil q)⟩
  | cons ch rest ih =>
      have hcons := write_changes_cons ch rest fs
      cases hwp : written_path ch with
      | none =>
          rw [hwp] at hcons
          rw [hcons, List.filterMap_cons, hwp]
          exact ih fs
      | some p =>
          rw [hwp] at hcons
          rw [hcons, List.filterMap_cons, hwp]
          obtain ⟨ih1, ih2, ih3⟩ :=
            ih (fun q => if q = p then some (written_content ch) else fs q)
          refine ⟨congrArg (fun l => p :: l) ih1, ?_, ?_⟩
          · intro q hq
            have hq' : ¬ (q = p ∨ q ∈ (write_changes rest
                (fun q => if q = p then some (written_content ch) else fs q)).2) :=
              fun hor => hq (List.mem_cons.mpr hor)
            push_neg at hq'
            have hfs := ih2 q hq'.2
            have : (write_changes rest
                (fun q => if q = p then some (written_content ch) else fs q)).1 q = fs q := by
              rw [hfs]
              exact if_neg hq'.1
            exact this
          · intro q hq
            rcases List.mem_cons.mp hq with hq | hq
            · exact hq ▸ written_path_mem ch p hwp
            · exact ih3 q hq

/-- C10 witness: the frame theorem applied to one allowed and one
disallowed change record over the empty filesystem. -/
theorem write_changes_frame_witness :
    (write_changes [[("path", JVal.str "app.py"), ("content", JVal.str "x")],
        [("path", JVal.str "evil.py"), ("content", JVal.str "y")]]
      (fun _ => none)).2 = ["app.py"] ∧
    (write_changes [[("path", JVal.str "app.py"), ("content", JVal.str "x")],
        [("path", JVal.str "evil.py"), ("content", JVal.str "y")]]
      (fun _ => none)).1 "evil.py" = none := by
  have h := write_changes_frame
    [[("path", JVal.str "app.py"), ("content", JVal.str "x")],
     [("path", JVal.str "evil.py"), ("content", JVal.str "y")]]
    (fun _ => none)
  refine ⟨?_, ?_⟩
  · rw [h.1]
    decide
  · have hne : "evil.py" ∉ (write_changes
        [[("path", JVal.str "app.py"), ("content", JVal.str "x")],
         [("path", JVal.str "evil.py"), ("content", JVal.str "y")]]
        (fun _ => none)).2 := by
      rw [h.1]
      decide
    exact h.2.1 "evil.py" hne
